import Mathlib

/-!
Shallow embedding of the Digger 2D game engine (src/script.js) and proofs
about its core components: the frame scheduler, scene activation, the
event bus, the inventory, AABB collision and hover detection, and player
movement.  Coordinates and timestamps (JS numbers) are modelled as
rationals; DOM side effects (UI refresh, dialogue display) are dropped and
event emissions are modelled as traces.
-/

namespace Digger

/-- Bounds record returned by `GameObject.getBounds` in src/script.js:
`{x, y, width, height}`. -/
structure Bounds where
  x : ℚ
  y : ℚ
  width : ℚ
  height : ℚ
deriving DecidableEq

/-- Base game object of src/script.js (`class GameObject`): position,
size and visibility flag (the engine back-reference is passed explicitly
to the operations that read it). -/
structure GameObject where
  x : ℚ
  y : ℚ
  width : ℚ
  height : ℚ
  visible : Bool
deriving DecidableEq

/-- `GameObject.getBounds`: returns `{x, y, width, height}`. -/
def GameObject.getBounds (o : GameObject) : Bounds :=
  ⟨o.x, o.y, o.width, o.height⟩

/-- `GameObject.isColliding(other)` from src/script.js lines 303-311:
strict-inequality AABB overlap test on the two objects' bounds. -/
def GameObject.isColliding (a other : GameObject) : Bool :=
  let bounds1 := a.getBounds
  let bounds2 := other.getBounds
  decide (bounds1.x < bounds2.x + bounds2.width) &&
  decide (bounds1.x + bounds1.width > bounds2.x) &&
  decide (bounds1.y < bounds2.y + bounds2.height) &&
  decide (bounds1.y + bounds1.height > bounds2.y)

/-- Engine pointer state `this.mouse = {x, y, clicked}`. -/
structure Mouse where
  x : ℚ
  y : ℚ
  clicked : Bool
deriving DecidableEq

/-- `class Inventory` of src/script.js: ordered item list plus capacity
(`maxItems`, 10 in the constructor).  The `updateUI` DOM side effect is
dropped. -/
structure Inventory (α : Type) where
  items : List α
  maxItems : Nat

/-- `Inventory.addItem` (src/script.js lines 176-183): pushes the item and
returns `true` when `items.length < maxItems`, otherwise returns `false`
without touching the list.  The boolean result is paired with the updated
inventory. -/
def Inventory.addItem (inv : Inventory α) (item : α) : Bool × Inventory α :=
  if inv.items.length < inv.maxItems then
    (true, { inv with items := inv.items ++ [item] })
  else
    (false, inv)

/-- Repeated `addItem` calls, returning the list of boolean results in
call order together with the final inventory. -/
def Inventory.addAll (inv : Inventory α) : List α → List Bool × Inventory α
  | [] => ([], inv)
  | a :: rest =>
    let r := inv.addItem a
    let r2 := r.2.addAll rest
    (r.1 :: r2.1, r2.2)

/-- `class Item extends GameObject` (src/script.js lines 390-396): a 24x24
object carrying its item data and the `collected` / `hovered` flags. -/
structure Item (α : Type) where
  x : ℚ
  y : ℚ
  width : ℚ
  height : ℚ
  itemData : α
  collected : Bool
  hovered : Bool

/-- `Item.collect` (src/script.js lines 414-432): returns early when
already collected; otherwise sets `collected = true`, attempts
`inventory.addItem(itemData)`, and on success emits `itemCollected` with
the item data (the emission is modelled as the third component, a trace of
emitted payloads; the dialogue DOM side effect is dropped). -/
def Item.collect (it : Item α) (inv : Inventory α) :
    Item α × Inventory α × List α :=
  if it.collected then
    (it, inv, [])
  else
    let it2 := { it with collected := true }
    let r := inv.addItem it.itemData
    if r.1 then
      (it2, r.2, [it.itemData])
    else
      (it2, r.2, [])

/-- `Item.update` (src/script.js lines 398-412): returns early when
collected; otherwise recomputes `hovered` from the pointer with
boundary-inclusive comparisons (`>= x`, `<= x + width`, `>= y`,
`<= y + height`) and, when hovered and the pointer's `clicked` edge flag
is set, invokes `collect`. -/
def Item.update (it : Item α) (mouse : Mouse) (inv : Inventory α) :
    Item α × Inventory α × List α :=
  if it.collected then
    (it, inv, [])
  else
    let hovered :=
      decide (mouse.x ≥ it.x) && decide (mouse.x ≤ it.x + it.width) &&
      decide (mouse.y ≥ it.y) && decide (mouse.y ≤ it.y + it.height)
    let it2 := { it with hovered := hovered }
    if hovered && mouse.clicked then
      it2.collect inv
    else
      (it2, inv, [])

/-- `class Player extends GameObject` (src/script.js lines 324-330): a
32x32 object with a speed scalar and a direction vector recomputed each
frame. -/
structure Player where
  x : ℚ
  y : ℚ
  width : ℚ
  height : ℚ
  speed : ℚ
  dirX : ℚ
  dirY : ℚ
deriving DecidableEq

/-- The `Player` constructor: `super(x, y, 32, 32)`, `speed = 200`,
`direction = {x: 0, y: 0}`. -/
def Player.new (x y : ℚ) : Player :=
  ⟨x, y, 32, 32, 200, 0, 0⟩

/-- The movement-input block of `Player.update` (src/script.js lines
333-350): direction starts at `(0,0)`; left keys set `dx = -1`, right keys
then set `dx = 1` (overriding left), and likewise up then down for `dy`. -/
def dirFromKeys (keys : String → Bool) : ℚ × ℚ :=
  let dx1 : ℚ := if keys "ArrowLeft" || keys "KeyA" then -1 else 0
  let dx2 : ℚ := if keys "ArrowRight" || keys "KeyD" then 1 else dx1
  let dy1 : ℚ := if keys "ArrowUp" || keys "KeyW" then -1 else 0
  let dy2 : ℚ := if keys "ArrowDown" || keys "KeyS" then 1 else dy1
  (dx2, dy2)

/-- The diagonal-normalisation block of `Player.update` (src/script.js
lines 353-356): when both components are non-zero, each is multiplied by
`0.707`. -/
def normDiag (d : ℚ × ℚ) : ℚ × ℚ :=
  if d.1 ≠ 0 ∧ d.2 ≠ 0 then (d.1 * (707 / 1000), d.2 * (707 / 1000)) else d

/-- `Math.max(lo, Math.min(v, hi))`, the border-check pattern of
src/script.js lines 363-364. -/
def clampTo (lo hi v : ℚ) : ℚ :=
  max lo (min v hi)

/-- `Player.update` (src/script.js lines 332-365): recompute the direction
from the key map, normalise diagonals, integrate
`position += direction * speed * deltaTime / 1000`, then clamp each axis
to `[0, engine dimension - size]`. -/
def Player.update (p : Player) (keys : String → Bool)
    (engineWidth engineHeight deltaTime : ℚ) : Player :=
  let d := normDiag (dirFromKeys keys)
  let x1 := p.x + d.1 * p.speed * deltaTime / 1000
  let y1 := p.y + d.2 * p.speed * deltaTime / 1000
  { p with
    dirX := d.1
    dirY := d.2
    x := clampTo 0 (engineWidth - p.width) x1
    y := clampTo 0 (engineHeight - p.height) y1 }

/-- The scheduler state read by `GameEngine.gameLoop`: the `isRunning`
flag and the `lastTime` timestamp (milliseconds). -/
structure LoopState where
  isRunning : Bool
  lastTime : ℚ
deriving DecidableEq

/-- One tick of `GameEngine.gameLoop(currentTime)` (src/script.js lines
115-125): when not running it returns without doing work (`none`);
otherwise it computes `deltaTime = currentTime - lastTime` (no clamping),
stores `currentTime` into `lastTime`, and invokes `update(deltaTime)`
followed by `render()`.  The result is the `deltaTime` passed to `update`
together with the state the next scheduled tick will see. -/
def gameLoopTick (s : LoopState) (currentTime : ℚ) :
    Option (ℚ × LoopState) :=
  if s.isRunning then
    let deltaTime := currentTime - s.lastTime
    some (deltaTime, { s with lastTime := currentTime })
  else
    none

/-- The scene-activation state of `GameEngine`: the set of registered
scene names (`this.scenes` keys), the active scene name
(`this.currentScene`, by name), and the ordered log of `init()`
invocations made so far (one entry per call, naming the scene whose
`init` ran). -/
structure SceneEngine where
  scenes : List String
  currentScene : Option String
  initLog : List String
deriving DecidableEq

/-- `GameEngine.setScene(name)` (src/script.js lines 62-67): when `name`
is registered, makes it the current scene and invokes its `init()`
(recorded by appending to the log); otherwise does nothing.  There is no
check whether the scene is already active. -/
def SceneEngine.setScene (e : SceneEngine) (name : String) : SceneEngine :=
  if name ∈ e.scenes then
    { e with currentScene := some name, initLog := e.initLog ++ [name] }
  else
    e

/-- `class EventSystem` (src/script.js lines 139-166): a map from event
name to the ordered list of registered callbacks.  Callbacks are modelled
by identifiers (`Nat`); the map is an association list in channel-creation
order. -/
structure EventSystem where
  events : List (String × List Nat)

/-- Lookup of `this.events.get(event)` (`none` models `has(event)` being
false). -/
def findCallbacks : List (String × List Nat) → String → Option (List Nat)
  | [], _ => none
  | (e, cs) :: rest, event => if e = event then some cs else findCallbacks rest event

/-- The map update performed by `EventSystem.on`: create the channel with
a one-element list when absent, otherwise push the callback at the end. -/
def addCallback : List (String × List Nat) → String → Nat → List (String × List Nat)
  | [], event, c => [(event, [c])]
  | (e, cs) :: rest, event, c =>
    if e = event then (e, cs ++ [c]) :: rest
    else (e, cs) :: addCallback rest event c

/-- `indexOf` + `splice(index, 1)`: remove the first occurrence, leave the
list unchanged when absent. -/
def removeFirst : List Nat → Nat → List Nat
  | [], _ => []
  | c :: rest, cb => if c = cb then rest else c :: removeFirst rest cb

/-- The map update performed by `EventSystem.off`: when the channel
exists, remove the callback's first occurrence from its list. -/
def offCallbacks : List (String × List Nat) → String → Nat → List (String × List Nat)
  | [], _, _ => []
  | (e, cs) :: rest, event, c =>
    if e = event then (e, removeFirst cs c) :: rest
    else (e, cs) :: offCallbacks rest event c

/-- `EventSystem.on(event, callback)` (src/script.js lines 144-149). -/
def EventSystem.on (s : EventSystem) (event : String) (callback : Nat) :
    EventSystem :=
  ⟨addCallback s.events event callback⟩

/-- `EventSystem.emit(event, data)` (src/script.js lines 151-155): when
the channel exists, invoke each of its callbacks in list order with
`data`; otherwise do nothing.  The synchronous invocations are modelled
as the returned trace of (callback, data) pairs, in invocation order. -/
def EventSystem.emit (s : EventSystem) (event : String) (data : α) :
    List (Nat × α) :=
  match findCallbacks s.events event with
  | some cs => cs.map fun c => (c, data)
  | none => []

/-- `EventSystem.off(event, callback)` (src/script.js lines 157-165). -/
def EventSystem.off (s : EventSystem) (event : String) (callback : Nat) :
    EventSystem :=
  ⟨offCallbacks s.events event callback⟩

/-- An event system built by a sequence of `on` calls starting from the
empty constructor state. -/
def buildES (subs : List (String × Nat)) : EventSystem :=
  subs.foldl (fun s p => s.on p.1 p.2) ⟨[]⟩

/-- The callbacks currently registered for a channel (empty when the
channel was never created). -/
def subscribers (s : EventSystem) (event : String) : List Nat :=
  (findCallbacks s.events event).getD []

/-- The scene state relevant to entity dispatch: whether the engine
back-reference is set (`addScene` sets it) and the scene's own
`gameObjects` list.  Entities are modelled by identifiers (`Nat`). -/
structure SceneObjects where
  hasEngine : Bool
  gameObjects : List Nat
deriving DecidableEq

/-- The engine state relevant to entity dispatch: the active scene and
the engine's flat `gameObjects` list. -/
structure EngineObjects where
  currentScene : Option SceneObjects
  gameObjects : List Nat

/-- `Scene.addGameObject(obj)` (src/script.js lines 490-495): push onto
the scene's own list and, when the engine back-reference is set, also call
`engine.addGameObject(obj)`, which pushes onto the engine's flat list. -/
def sceneAddGameObject (s : SceneObjects) (e : EngineObjects) (obj : Nat) :
    SceneObjects × EngineObjects :=
  let s2 := { s with gameObjects := s.gameObjects ++ [obj] }
  if s.hasEngine then
    (s2, { e with gameObjects := e.gameObjects ++ [obj] })
  else
    (s2, e)

/-- The update dispatch of one `GameEngine.update(deltaTime)` call
(src/script.js lines 81-96): first the active scene's `update` runs,
which iterates the scene's own `gameObjects` invoking each entity's
update hook (src/script.js lines 497-503), then the engine iterates its
flat `gameObjects` list invoking each entity's update hook again.  The
result is the trace of entities whose update hook is invoked, in
invocation order. -/
def EngineObjects.updateTrace (e : EngineObjects) : List Nat :=
  (match e.currentScene with
   | some s => s.gameObjects
   | none => []) ++ e.gameObjects

/-! ## Helper lemmas -/

lemma clampTo_mem (lo hi v : ℚ) (h : lo ≤ hi) :
    lo ≤ clampTo lo hi v ∧ clampTo lo hi v ≤ hi :=
  ⟨le_max_left _ _, max_le h (min_le_right _ _)⟩

lemma clampTo_eq_self (lo hi v : ℚ) (h1 : lo ≤ v) (h2 : v ≤ hi) :
    clampTo lo hi v = v := by
  unfold clampTo
  rw [min_eq_left h2, max_eq_right h1]

lemma Item.update_hovered_eq (it : Item α) (mouse : Mouse) (inv : Inventory α)
    (h : it.collected = false) :
    (it.update mouse inv).1.hovered =
      (decide (mouse.x ≥ it.x) && decide (mouse.x ≤ it.x + it.width) &&
       decide (mouse.y ≥ it.y) && decide (mouse.y ≤ it.y + it.height)) := by
  simp only [Item.update, h, Bool.false_eq_true, if_false]
  split
  · simp only [Item.collect, h, Bool.false_eq_true, if_false]
    split <;> rfl
  · rfl

/-! ## Claims -/

/-- Claim C4: `isColliding` is the strict-inequality AABB overlap test:
it returns true iff `A.x < B.x+B.w`, `A.x+A.w > B.x`, `A.y < B.y+B.h` and
`A.y+A.h > B.y` all hold; exactly edge-touching rectangles
A={0,0,10,10}, B={10,0,10,10} are not colliding, while A={0,0,10,10},
B={5,5,10,10} are. -/
theorem isColliding_strict_aabb :
    (∀ a b : GameObject, a.isColliding b = true ↔
      (a.x < b.x + b.width ∧ a.x + a.width > b.x ∧
       a.y < b.y + b.height ∧ a.y + a.height > b.y)) ∧
    (GameObject.mk 0 0 10 10 true).isColliding (GameObject.mk 10 0 10 10 true)
      = false ∧
    (GameObject.mk 0 0 10 10 true).isColliding (GameObject.mk 5 5 10 10 true)
      = true := by
  refine ⟨fun a b => ?_, ?_, ?_⟩
  · simp [GameObject.isColliding, GameObject.getBounds, and_assoc]
  · norm_num [GameObject.isColliding, GameObject.getBounds]
  · norm_num [GameObject.isColliding, GameObject.getBounds]

/-- Claim C5: for an uncollected item, the hover flag computed by
`Item.update` is true iff the pointer lies in the closed box
`[x, x+w] × [y, y+h]` (boundary-inclusive); in particular a pointer at
exactly `(x+w, y+h)` is hovering. -/
theorem item_hover_closed_interval (α : Type) (it : Item α) (mouse : Mouse)
    (inv : Inventory α) (h : it.collected = false) :
    ((it.update mouse inv).1.hovered = true ↔
      (it.x ≤ mouse.x ∧ mouse.x ≤ it.x + it.width ∧
       it.y ≤ mouse.y ∧ mouse.y ≤ it.y + it.height)) ∧
    ((Item.mk 0 0 24 24 it.itemData false false).update ⟨24, 24, false⟩
      inv).1.hovered = true := by
  constructor
  · rw [Item.update_hovered_eq it mouse inv h]
    simp [and_assoc]
  · rw [Item.update_hovered_eq _ _ _ rfl]
    norm_num

/-- Witness for C5 at a concrete input: the 24x24 item at the origin with
the pointer exactly on its bottom-right corner is hovering. -/
theorem item_hover_closed_interval_witness :
    ((Item.mk 0 0 24 24 (0 : Nat) false false).update ⟨24, 24, false⟩
      ⟨[], 10⟩).1.hovered = true :=
  (item_hover_closed_interval Nat ⟨0, 0, 24, 24, 0, false, false⟩ ⟨24, 24, false⟩
    ⟨[], 10⟩ rfl).2

/-- Claim C7: after `Player.update` the position always lies in
`[0, surfaceWidth - w] × [0, surfaceHeight - h]`: for every key state,
starting position and non-negative dt, clamping is applied after
integration. -/
theorem player_position_clamped (p : Player) (keys : String → Bool)
    (engineWidth engineHeight deltaTime : ℚ)
    (hW : p.width ≤ engineWidth) (hH : p.height ≤ engineHeight)
    (_hdt : 0 ≤ deltaTime) :
    0 ≤ (p.update keys engineWidth engineHeight deltaTime).x ∧
    (p.update keys engineWidth engineHeight deltaTime).x
      ≤ engineWidth - p.width ∧
    0 ≤ (p.update keys engineWidth engineHeight deltaTime).y ∧
    (p.update keys engineWidth engineHeight deltaTime).y
      ≤ engineHeight - p.height := by
  have hx := clampTo_mem 0 (engineWidth - p.width)
    (p.x + (normDiag (dirFromKeys keys)).1 * p.speed * deltaTime / 1000)
    (by linarith)
  have hy := clampTo_mem 0 (engineHeight - p.height)
    (p.y + (normDiag (dirFromKeys keys)).2 * p.speed * deltaTime / 1000)
    (by linarith)
  exact ⟨hx.1, hx.2, hy.1, hy.2⟩

/-- Witness for C7 at a concrete input: a default player at (100, 100) on
an 800x600 surface with all keys released and dt = 5000. -/
theorem player_position_clamped_witness :
    0 ≤ ((Player.new 100 100).update (fun _ => false) 800 600 5000).x ∧
    ((Player.new 100 100).update (fun _ => false) 800 600 5000).x
      ≤ 800 - (Player.new 100 100).width ∧
    0 ≤ ((Player.new 100 100).update (fun _ => false) 800 600 5000).y ∧
    ((Player.new 100 100).update (fun _ => false) 800 600 5000).y
      ≤ 600 - (Player.new 100 100).height :=
  player_position_clamped (Player.new 100 100) (fun _ => false) 800 600 5000
    (by norm_num [Player.new]) (by norm_num [Player.new]) (by norm_num)

lemma addAll_within_capacity (xs : List α) : ∀ (inv : Inventory α),
    inv.items.length + xs.length ≤ inv.maxItems →
    (inv.addAll xs).1 = List.replicate xs.length true ∧
    (inv.addAll xs).2.items.length = inv.items.length + xs.length ∧
    (inv.addAll xs).2.maxItems = inv.maxItems := by
  induction xs with
  | nil =>
    intro inv _
    simp [Inventory.addAll]
  | cons a rest ih =>
    intro inv h
    have hlt : inv.items.length < inv.maxItems := by
      simp only [List.length_cons] at h
      omega
    have hrec := ih { inv with items := inv.items ++ [a] } (by
      simp only [List.length_append, List.length_cons, List.length_nil] at h ⊢
      omega)
    simp only [Inventory.addAll, Inventory.addItem, if_pos hlt,
      List.length_cons, List.replicate_succ]
    simp only [List.length_append, List.length_cons, List.length_nil] at hrec ⊢
    exact ⟨by rw [hrec.1], by rw [hrec.2.1]; omega, hrec.2.2⟩

/-- Claim C8: with capacity 10, `addItem` succeeds iff the current length
is strictly below 10; from an empty inventory ten adds all succeed, the
eleventh returns false and leaves the length at 10. -/
theorem inventory_capacity_ten (α : Type) (xs : List α) (a : α)
    (hlen : xs.length = 10) :
    (∀ (inv : Inventory α) (b : α), inv.maxItems = 10 →
      ((inv.addItem b).1 = true ↔ inv.items.length < 10)) ∧
    ((Inventory.mk ([] : List α) 10).addAll xs).1 = List.replicate 10 true ∧
    ((Inventory.mk ([] : List α) 10).addAll xs).2.items.length = 10 ∧
    (((Inventory.mk ([] : List α) 10).addAll xs).2.addItem a).1 = false ∧
    (((Inventory.mk ([] : List α) 10).addAll xs).2.addItem a).2.items.length
      = 10 := by
  have hall := addAll_within_capacity xs (Inventory.mk ([] : List α) 10) (by
    simp [hlen])
  have hflen : ((Inventory.mk ([] : List α) 10).addAll xs).2.items.length = 10 := by
    have := hall.2.1
    simpa [hlen] using this
  have hfmax : ((Inventory.mk ([] : List α) 10).addAll xs).2.maxItems = 10 :=
    hall.2.2
  refine ⟨?_, ?_, hflen, ?_, ?_⟩
  · intro inv b hmax
    by_cases hc : inv.items.length < 10 <;> simp [Inventory.addItem, hmax, hc]
  · rw [hall.1, hlen]
  · simp [Inventory.addItem, hflen, hfmax]
  · simp [Inventory.addItem, hflen, hfmax]

/-- Witness for C8 at a concrete input: after ten adds from empty the
eleventh `addItem` returns false. -/
theorem inventory_capacity_ten_witness :
    (((Inventory.mk ([] : List Nat) 10).addAll (List.replicate 10 0)).2.addItem
      1).1 = false :=
  (inventory_capacity_ten Nat (List.replicate 10 0) 1 (by simp)).2.2.2.1

/-- Claim C2, counterexample: a tick whose `currentTime` (50) is behind
`lastTime` (100) passes `deltaTime = -50 < 0` to `update` — `gameLoop`
performs no clamping. -/
theorem gameLoop_negative_delta_cex :
    gameLoopTick ⟨true, 100⟩ 50 = some (-50, ⟨true, 50⟩) ∧ (-50 : ℚ) < 0 := by
  constructor
  · norm_num [gameLoopTick]
  · norm_num

/-- Claim C2 as amended: each running tick passes the raw difference
`currentTime - lastTime` to `update` with no clamping, so the delta is
negative whenever the host clock is non-monotonic
(`currentTime < lastTime`). -/
theorem gameLoop_delta_unclamped (s : LoopState) (currentTime : ℚ)
    (h : s.isRunning = true) :
    gameLoopTick s currentTime
      = some (currentTime - s.lastTime, ⟨true, currentTime⟩) ∧
    (currentTime < s.lastTime → currentTime - s.lastTime < 0) := by
  constructor
  · simp [gameLoopTick, h]
  · intro hlt
    linarith

/-- Witness for C2's amended theorem at a concrete input. -/
theorem gameLoop_delta_unclamped_witness :
    gameLoopTick ⟨true, 0⟩ 16 = some (16 - 0, ⟨true, 16⟩) :=
  (gameLoop_delta_unclamped ⟨true, 0⟩ 16 rfl).1

/-- Claim C3, counterexample: registering scene "game" and calling
`setScene "game"` twice runs `init()` twice — the second call on the
already-active scene re-invokes `init()`. -/
theorem setScene_reinit_cex :
    (((SceneEngine.mk ["game"] none []).setScene "game").setScene
      "game").initLog = ["game", "game"] := by
  decide

/-- Claim C3 as amended: every `setScene` call on a registered name makes
it the current scene and invokes its `init()`, including when that scene
is already active — a redundant `setScene` re-invokes `init()`. -/
theorem setScene_always_inits (e : SceneEngine) (name : String)
    (h : name ∈ e.scenes) :
    (e.setScene name).currentScene = some name ∧
    (e.setScene name).initLog = e.initLog ++ [name] := by
  simp [SceneEngine.setScene, h]

/-- Witness for C3's amended theorem at a concrete input: the scene is
already active and `init()` runs again. -/
theorem setScene_always_inits_witness :
    ((SceneEngine.mk ["game"] (some "game") ["game"]).setScene
      "game").initLog = ["game"] ++ ["game"] :=
  (setScene_always_inits ⟨["game"], some "game", ["game"]⟩ "game"
    (by decide)).2

/-- Claim C1, counterexample: with the inventory at capacity (10 of 10),
clicking while hovering the uncollected item at (0,0) sets
`collected = true` — the item does not remain uncollected. -/
theorem collect_at_capacity_cex :
    ((Item.mk 0 0 24 24 (0 : Nat) false false).update ⟨0, 0, true⟩
      ⟨List.replicate 10 0, 10⟩).1.collected = true := by
  norm_num [Item.update, Item.collect, Inventory.addItem]

/-- Claim C1 as amended: when the inventory is at capacity, clicking while
hovering an uncollected item still marks it collected (`collected` becomes
true); the inventory is left unchanged and no `itemCollected` event is
emitted, so the item cannot be collected on a later click. -/
theorem collect_at_capacity_marks_collected (α : Type) (it : Item α)
    (mouse : Mouse) (inv : Inventory α)
    (hc : it.collected = false)
    (hx1 : it.x ≤ mouse.x) (hx2 : mouse.x ≤ it.x + it.width)
    (hy1 : it.y ≤ mouse.y) (hy2 : mouse.y ≤ it.y + it.height)
    (hclick : mouse.clicked = true)
    (hfull : inv.maxItems ≤ inv.items.length) :
    (it.update mouse inv).1.collected = true ∧
    (it.update mouse inv).2.1 = inv ∧
    (it.update mouse inv).2.2 = [] := by
  have hb : (decide (mouse.x ≥ it.x) && decide (mouse.x ≤ it.x + it.width) &&
      decide (mouse.y ≥ it.y) && decide (mouse.y ≤ it.y + it.height)) = true := by
    simp [hx1, hx2, hy1, hy2]
  have hfail : ¬ inv.items.length < inv.maxItems := by omega
  simp [Item.update, Item.collect, Inventory.addItem, hc, hb, hclick, hfail]

/-- Witness for C1's amended theorem at a concrete input: full inventory,
pointer clicked over the item, no event emitted. -/
theorem collect_at_capacity_marks_collected_witness :
    ((Item.mk 0 0 24 24 (5 : Nat) false false).update ⟨12, 12, true⟩
      ⟨List.replicate 10 0, 10⟩).2.2 = [] :=
  (collect_at_capacity_marks_collected Nat ⟨0, 0, 24, 24, 5, false, false⟩
    ⟨12, 12, true⟩ ⟨List.replicate 10 0, 10⟩ rfl (by norm_num) (by norm_num)
    (by norm_num) (by norm_num) rfl (by simp)).2.2

/-- Claim C6: with both direction components driven to 1 (a right key and
a down key pressed), speed 200 and dt = 1000 ms, away from the surface
borders one update moves each axis by exactly `200 * 0.707 = 141.4`
units, and the squared displacement magnitude lies strictly between 199²
and 200² — the magnitude is ≈ 200, not 200√2. -/
theorem diagonal_movement_normalized (x y engineWidth engineHeight : ℚ)
    (keys : String → Bool)
    (hr : (keys "ArrowRight" || keys "KeyD") = true)
    (hd : (keys "ArrowDown" || keys "KeyS") = true)
    (hx0 : 0 ≤ x + 707/5) (hxW : x + 707/5 ≤ engineWidth - 32)
    (hy0 : 0 ≤ y + 707/5) (hyH : y + 707/5 ≤ engineHeight - 32) :
    ((Player.new x y).update keys engineWidth engineHeight 1000).x
      = x + 200 * (707/1000) ∧
    ((Player.new x y).update keys engineWidth engineHeight 1000).y
      = y + 200 * (707/1000) ∧
    (199 : ℚ)^2 < (200 * (707/1000))^2 + (200 * (707/1000))^2 ∧
    (200 * (707/1000))^2 + (200 * (707/1000))^2 < (200 : ℚ)^2 := by
  have hdir : dirFromKeys keys = (1, 1) := by
    simp [dirFromKeys, hr, hd]
  have hnorm : normDiag (1, 1) = (707/1000, 707/1000) := by
    norm_num [normDiag]
  have hx : ((Player.new x y).update keys engineWidth engineHeight 1000).x
      = clampTo 0 (engineWidth - 32) (x + 707/5) := by
    simp only [Player.update, Player.new, hdir, hnorm]
    norm_num
  have hy : ((Player.new x y).update keys engineWidth engineHeight 1000).y
      = clampTo 0 (engineHeight - 32) (y + 707/5) := by
    simp only [Player.update, Player.new, hdir, hnorm]
    norm_num
  refine ⟨?_, ?_, by norm_num, by norm_num⟩
  · rw [hx, clampTo_eq_self _ _ _ hx0 hxW]
    norm_num
  · rw [hy, clampTo_eq_self _ _ _ hy0 hyH]
    norm_num

/-- Witness for C6 at a concrete input: the default player at (100,100) on
an 800x600 surface with KeyD and KeyS held moves 141.4 units right. -/
theorem diagonal_movement_normalized_witness :
    ((Player.new 100 100).update (fun k => k == "KeyD" || k == "KeyS") 800
      600 1000).x = 100 + 200 * (707/1000) :=
  (diagonal_movement_normalized 100 100 800 600
    (fun k => k == "KeyD" || k == "KeyS") (by decide) (by decide)
    (by norm_num) (by norm_num) (by norm_num) (by norm_num)).1

/-- Claim C10: `Scene.addGameObject` with the engine back-reference set
appends the object both to the scene's own entity list and to the engine's
flat `gameObjects` list, so a single `GameEngine.update` invokes the
object's update hook exactly twice — once via the active scene's iteration
and once via the engine's global iteration. -/
theorem scene_add_double_update (s : SceneObjects) (e : EngineObjects)
    (obj : Nat) (hEng : s.hasEngine = true)
    (hs : obj ∉ s.gameObjects) (he : obj ∉ e.gameObjects) :
    (sceneAddGameObject s e obj).1.gameObjects = s.gameObjects ++ [obj] ∧
    (sceneAddGameObject s e obj).2.gameObjects = e.gameObjects ++ [obj] ∧
    (EngineObjects.mk (some (sceneAddGameObject s e obj).1)
      (sceneAddGameObject s e obj).2.gameObjects).updateTrace.count obj
      = 2 := by
  simp only [sceneAddGameObject, hEng, if_true, EngineObjects.updateTrace]
  refine ⟨trivial, trivial, ?_⟩
  simp [List.count_append, List.count_eq_zero.mpr hs,
    List.count_eq_zero.mpr he]

/-- Witness for C10 at a concrete input: a fresh object added through the
scene is updated twice by one engine update. -/
theorem scene_add_double_update_witness :
    (EngineObjects.mk (some (sceneAddGameObject ⟨true, [1]⟩ ⟨none, [1]⟩ 7).1)
      (sceneAddGameObject ⟨true, [1]⟩ ⟨none, [1]⟩ 7).2.gameObjects).updateTrace.count
      7 = 2 :=
  (scene_add_double_update ⟨true, [1]⟩ ⟨none, [1]⟩ 7 rfl (by decide)
    (by decide)).2.2

lemma findCallbacks_addCallback_same (l : List (String × List Nat))
    (event : String) (c : Nat) :
    findCallbacks (addCallback l event c) event
      = some ((findCallbacks l event).getD [] ++ [c]) := by
  induction l with
  | nil => simp [addCallback, findCallbacks]
  | cons p rest ih =>
    obtain ⟨e, cs⟩ := p
    by_cases he : e = event
    · simp [addCallback, findCallbacks, he]
    · simp [addCallback, findCallbacks, he, ih]

lemma findCallbacks_addCallback_ne (l : List (String × List Nat))
    (event event' : String) (c : Nat) (h : event ≠ event') :
    findCallbacks (addCallback l event c) event' = findCallbacks l event' := by
  induction l with
  | nil => simp [addCallback, findCallbacks, h]
  | cons p rest ih =>
    obtain ⟨e, cs⟩ := p
    by_cases he : e = event
    · subst he
      simp [addCallback, findCallbacks, h]
    · by_cases he' : e = event'
      · simp [addCallback, findCallbacks, he, he', Ne.symm h]
      · simp [addCallback, findCallbacks, he, he', ih]

lemma findCallbacks_offCallbacks_same (l : List (String × List Nat))
    (event : String) (c : Nat) :
    findCallbacks (offCallbacks l event c) event
      = (findCallbacks l event).map fun cs => removeFirst cs c := by
  induction l with
  | nil => simp [offCallbacks, findCallbacks]
  | cons p rest ih =>
    obtain ⟨e, cs⟩ := p
    by_cases he : e = event
    · simp [offCallbacks, findCallbacks, he]
    · simp [offCallbacks, findCallbacks, he, ih]

lemma removeFirst_append_not_mem (cs : List Nat) (c : Nat) (h : c ∉ cs) :
    removeFirst (cs ++ [c]) c = cs := by
  induction cs with
  | nil => simp [removeFirst]
  | cons a rest ih =>
    simp only [List.mem_cons, not_or] at h
    have ha : ¬ a = c := fun hac => h.1 hac.symm
    simp [removeFirst, ha, ih h.2]

lemma emit_eq_map_subscribers (s : EventSystem) (event : String) (d : α) :
    s.emit event d = (subscribers s event).map fun cb => (cb, d) := by
  unfold EventSystem.emit subscribers
  cases findCallbacks s.events event <;> simp

lemma foldl_on_subscribers (subs : List (String × Nat)) :
    ∀ (s0 : EventSystem) (event : String),
    subscribers (subs.foldl (fun s p => s.on p.1 p.2) s0) event
      = subscribers s0 event
        ++ (subs.filter fun p => p.1 == event).map Prod.snd := by
  induction subs with
  | nil =>
    intro s0 event
    simp
  | cons p rest ih =>
    intro s0 event
    rw [List.foldl_cons, ih]
    by_cases he : p.1 = event
    · have hon : subscribers (s0.on p.1 p.2) event
          = subscribers s0 event ++ [p.2] := by
        unfold subscribers EventSystem.on
        rw [he, findCallbacks_addCallback_same]
        simp
      rw [hon]
      simp [List.filter_cons, he, List.append_assoc]
    · have hon : subscribers (s0.on p.1 p.2) event = subscribers s0 event := by
        unfold subscribers EventSystem.on
        rw [findCallbacks_addCallback_ne _ _ _ _ he]
      rw [hon]
      simp [List.filter_cons, he]

/-- Claim C9: `emit` invokes exactly the currently-subscribed callbacks of
the channel, in subscription order, each receiving the payload; an `emit`
on a channel with no subscribers invokes nothing; and a callback that was
subscribed via `on` and then removed via `off` is never invoked by later
emits (its behaviour is that of the system before the subscription). -/
theorem eventSystem_contract (subs : List (String × Nat)) (s : EventSystem)
    (event : String) (c : Nat) (d : α) :
    ((buildES subs).emit event d
      = ((subs.filter fun p => p.1 == event).map Prod.snd).map
          fun cb => (cb, d)) ∧
    (subscribers s event = [] → s.emit event d = []) ∧
    (c ∉ subscribers s event →
      ((s.on event c).off event c).emit event d = s.emit event d) := by
  refine ⟨?_, ?_, ?_⟩
  · rw [emit_eq_map_subscribers]
    unfold buildES
    rw [foldl_on_subscribers]
    simp [subscribers, findCallbacks]
  · intro h0
    rw [emit_eq_map_subscribers, h0]
    rfl
  · intro hnot
    rw [emit_eq_map_subscribers, emit_eq_map_subscribers]
    have hsub : subscribers ((s.on event c).off event c) event
        = subscribers s event := by
      unfold subscribers EventSystem.off EventSystem.on
      rw [findCallbacks_offCallbacks_same, findCallbacks_addCallback_same]
      simp only [Option.map_some', Option.getD_some]
      exact removeFirst_append_not_mem _ c (by simpa [subscribers] using hnot)
    rw [hsub]

/-- Witness for C9 at a concrete input: three subscriptions on two
channels fire in order on their channel, and a subscribed-then-removed
callback is not invoked. -/
theorem eventSystem_contract_witness :
    (buildES [("a", 1), ("b", 2), ("a", 3)]).emit "a" (0 : Nat)
      = [(1, 0), (3, 0)] ∧
    (((EventSystem.mk [("a", [5])]).on "a" 7).off "a" 7).emit "a" (0 : Nat)
      = [(5, 0)] := by
  have h := eventSystem_contract [("a", 1), ("b", 2), ("a", 3)]
    ⟨[("a", [5])]⟩ "a" 7 (0 : Nat)
  constructor
  · rw [h.1]
    decide
  · rw [h.2.2 (by decide)]
    decide

end Digger
